import Mathlib

/-!
# Verification of the VirtualBox node-lifecycle driver

Shallow embedding of `vendor/github.com/docker/machine/drivers/virtualbox/virtualbox.go`.
Go machine integers are modelled as `Nat`/`Int` (with explicit wrapping where it matters),
fallible operations as `Except`/`Option`, and the external world (the `VBoxManage`
subprocess, `net.Listen`, `rand.Intn`) as explicit oracle arguments.
-/

namespace Yati.VirtualBox

/-- The `state.State` enumeration of libmachine, restricted to the values this driver
uses.  `unknown` models `state.None` (the spec calls it Unknown), `errorState` models
`state.Error`. -/
inductive VMState where
  | unknown
  | running
  | paused
  | saved
  | stopped
  | errorState
  deriving DecidableEq, Repr

/-- Driver-level error values (`ErrMachineNotExist`, wrapped subprocess failures,
`ErrUnableToGenerateRandomIP`, `ErrNetworkAddrCidr`, ...). -/
inductive DriverErr where
  | machineNotExist
  | commandFailed
  | unableToGenerateRandomIP
  | networkAddrCidr
  | hostIsNotRunning
  deriving DecidableEq, Repr

/-- The token dispatch at the end of `GetState` (virtualbox.go lines 607-617): the
token captured by the regex from `VMState="<token>"` is switched on; every branch,
including the default, returns a state together with a `nil` error. -/
def GetStateSwitch (token : String) : VMState × Option DriverErr :=
  (if token = "running" then VMState.running
   else if token = "paused" then VMState.paused
   else if token = "saved" then VMState.saved
   else if token = "poweroff" then VMState.stopped
   else if token = "aborted" then VMState.stopped
   else VMState.unknown, none)

/-- The CPU-count normalization inside `Create` (virtualbox.go lines 326-332):
`cpus := d.CPU; if cpus < 1 { cpus = runtime.NumCPU() }; if cpus > 32 { cpus = 32 }`.
`numCPU` is the oracle for `runtime.NumCPU()`. -/
def normalizeCPU (cpu numCPU : Int) : Int :=
  let cpus := if cpu < 1 then numCPU else cpu
  if cpus > 32 then 32 else cpus

/-- `net.CIDRMask(ones, 32)` as a 32-bit value: the top `ones` bits set. -/
def cidrMask (ones : Nat) : Nat := (2 ^ 32 - 2 ^ (32 - ones)) % 2 ^ 32

/-- An IPv4 network as `net.ParseCIDR` returns it: the masked base address and the
prefix length of the mask. -/
structure IPNet where
  ip : Nat
  maskOnes : Nat
  deriving DecidableEq, Repr

/-- The network half of `net.ParseCIDR` on an already-lexed IPv4 CIDR `ip/ones`:
the network base address is the host address bitwise-ANDed with the mask. -/
def parseCIDRNetwork (ip ones : Nat) : IPNet :=
  ⟨ip % 2 ^ 32 &&& cidrMask ones, ones⟩

/-- `parseAndValidateCIDR` (virtualbox.go lines 717-729) after `net.ParseCIDR`
succeeded on the lexed CIDR `ip/ones`: fails with `ErrNetworkAddrCidr` when the host
address equals the network base address, otherwise returns the host address and the
network unchanged. -/
def parseAndValidateCIDR (ip ones : Nat) : Except DriverErr (Nat × IPNet) :=
  let network := parseCIDRNetwork ip ones
  if ip % 2 ^ 32 = network.ip then Except.error DriverErr.networkAddrCidr
  else Except.ok (ip, network)

/-! ## Disk image construction (`createDiskImage`, `zeroFill`) -/

/-- `blocksize = 32 << 10` of `zeroFill` (virtualbox.go line 789). -/
def blocksize : Nat := 32 <<< 10

/-- `zeroFill` (virtualbox.go lines 788-805), viewed as the sizes of the successive
writes it performs: while `n > 0`, it writes `blocksize` zero bytes when
`n > blocksize` and `n` zero bytes otherwise, subtracting the written count from `n`. -/
def zeroFill (n : Nat) : List Nat :=
  if n = 0 then []
  else if blocksize < n then blocksize :: zeroFill (n - blocksize)
  else [n]
termination_by n
decreasing_by simp [blocksize] at *; omega

/-- The byte stream produced by `zeroFill`: each write is a run of zero bytes. -/
def zeroFillBytes (n : Nat) : List Nat :=
  (zeroFill n).flatMap (fun k => List.replicate k 0)

/-- `createDiskImage` (virtualbox.go lines 733-785), viewed as the full byte stream it
writes to the conversion subprocess's stdin: `sizeBytes := int64(size) << 20`;
`io.Copy` writes the reader `r` entirely (so `n = len r`); then, if
`left := sizeBytes - n > 0`, `zeroFill` pads with `left` zero bytes. -/
def createDiskImage (size : Nat) (r : List Nat) : List Nat :=
  let sizeBytes : Int := ((size <<< 20 : Nat) : Int)
  let n : Int := r.length
  let left : Int := sizeBytes - n
  if 0 < left then r ++ zeroFillBytes left.toNat else r

/-! ## Port allocation (`getAvailableTCPPort`) -/

/-- The outcome of one `net.Listen("tcp4", "127.0.0.1:<port>")` call: an error, or a
listener whose address carries the OS-bound port (requesting port 0 yields an
OS-assigned port). `strconv.Atoi` on a real listener address cannot fail and is not
modelled. -/
inductive ListenResult where
  | err
  | bound (port : Nat)
  deriving DecidableEq, Repr

/-- The result of `getAvailableTCPPort`: a port, the immediate propagation of a
`net.Listen` error, or the final `unable to allocate tcp port` error. -/
inductive PortAllocResult where
  | ok (port : Nat)
  | listenErr
  | allocFailed
  deriving DecidableEq, Repr

/-- The loop of `getAvailableTCPPort` (virtualbox.go lines 810-828):
`for i := 0; i <= 10; i++` (11 iterations, counted by `fuel`). A `net.Listen` error
returns immediately; a successful listen whose parsed port is nonzero returns that
port; otherwise the port hint is discarded (`port = 0`) and the loop retries. The
`listen` oracle gives the outcome of the attempt at each loop index. Falling out of
the loop yields the allocation error (line 829). -/
def getAvailableTCPPortLoop (listen : Nat → Nat → ListenResult) :
    Nat → Nat → Nat → PortAllocResult
  | 0, _, _ => PortAllocResult.allocFailed
  | fuel+1, i, port =>
    match listen i port with
    | ListenResult.err => PortAllocResult.listenErr
    | ListenResult.bound p =>
      if p ≠ 0 then PortAllocResult.ok p
      else getAvailableTCPPortLoop listen fuel (i+1) 0

/-- `getAvailableTCPPort` (virtualbox.go lines 809-830). -/
def getAvailableTCPPort (listen : Nat → Nat → ListenResult) (port : Nat) :
    PortAllocResult :=
  getAvailableTCPPortLoop listen 11 0 port

/-! ## Stop's running-check polling loop -/

/-- One `GetState` query outcome as `Stop`'s loop observes it. -/
inductive QueryResult where
  | ok (s : VMState)
  | failed
  deriving DecidableEq, Repr

/-- The fixed sleep between `Stop`'s polls: `time.Sleep(1 * time.Second)`
(virtualbox.go line 542), in seconds. -/
def stopPollInterval : Nat := 1

/-- The running-check loop of `Stop` (virtualbox.go lines 536-546): poll `GetState`;
on a query error return it; if the state is `Running`, sleep `stopPollInterval` and
poll again; otherwise break. `states i` is the outcome of the i-th query. `fuel`
unrolls the loop: `none` means the loop has not returned within `fuel` polls; `some
(res, polls)` means it returned `res` after `polls` total queries (counting from the
start index `i`). -/
def stopPollLoop (states : Nat → QueryResult) :
    Nat → Nat → Option (Except DriverErr Unit × Nat)
  | 0, _ => none
  | fuel+1, i =>
    match states i with
    | QueryResult.failed => some (Except.error DriverErr.commandFailed, i + 1)
    | QueryResult.ok s =>
      if s = VMState.running then stopPollLoop states fuel (i+1)
      else some (Except.ok (), i + 1)

/-! ## Remove -/

/-- The destructive operations `Remove` can issue: the graceful `Stop` sequence, the
forced `Kill` (`controlvm <name> poweroff`, virtualbox.go lines 589-591), and
`unregistervm --delete`. -/
inductive RemoveCmd where
  | stop
  | kill
  | unregisterDelete
  deriving DecidableEq, Repr

/-- The outcome of `Remove`'s initial `GetState` query: the machine-not-found error,
another error, or a state. -/
inductive StateQuery where
  | notFound
  | failed
  | found (s : VMState)
  deriving DecidableEq, Repr

/-- `Remove` (virtualbox.go lines 554-575), with the `GetState` outcome and the
results of the `Stop`, `Kill` and `unregistervm --delete` sub-operations as oracles.
Returns the overall result and the trace of destructive operations issued:
`ErrMachineNotExist` is success with no commands; another query error propagates; a
`Running` state is stopped gracefully, a state that is neither `Stopped` nor `Running`
is killed, and (when that succeeds) the VM is unregistered and deleted. -/
def Remove (q : StateQuery) (stopResult killResult unregResult : Except DriverErr Unit) :
    Except DriverErr Unit × List RemoveCmd :=
  match q with
  | StateQuery.notFound => (Except.ok (), [])
  | StateQuery.failed => (Except.error DriverErr.commandFailed, [])
  | StateQuery.found s =>
    if s = VMState.running then
      match stopResult with
      | Except.error e => (Except.error e, [RemoveCmd.stop])
      | Except.ok _ => (unregResult, [RemoveCmd.stop, RemoveCmd.unregisterDelete])
    else if s ≠ VMState.stopped then
      match killResult with
      | Except.error e => (Except.error e, [RemoveCmd.kill])
      | Except.ok _ => (unregResult, [RemoveCmd.kill, RemoveCmd.unregisterDelete])
    else (unregResult, [RemoveCmd.unregisterDelete])

/-! ## Random DHCP address (`getRandomIPinSubnet`) -/

/-- An IPv4 address as four octets, as built by `net.IPv4(a, b, c, d)`. -/
structure IP4 where
  a : Nat
  b : Nat
  c : Nat
  d : Nat
  deriving DecidableEq, Repr

/-- `rand.Intn(25)` on draw `i` of the pseudo-random source `draws`: a value in
`[0, 25)`. -/
def intn25 (draws : Nat → Nat) (i : Nat) : Nat := draws i % 25

/-- The loop of `getRandomIPinSubnet` (virtualbox.go lines 859-865):
`for i := 0; i < 5; i++` (`fuel = 5 - i`); the first draw `n` with
`byte(n) != nAddr[3]` yields `net.IPv4(nAddr[0], nAddr[1], nAddr[2], byte(n))`
(`byte(n) = n` since `n < 25`); if all five draws collide, `dhcpAddr` stays nil and
`ErrUnableToGenerateRandomIP` is returned (lines 867-869). The second component is
the number of draws made. -/
def getRandomIPinSubnetLoop (draws : Nat → Nat) (base : IP4) :
    Nat → Nat → Except DriverErr IP4 × Nat
  | 0, i => (Except.error DriverErr.unableToGenerateRandomIP, i)
  | fuel+1, i =>
    if intn25 draws i ≠ base.d then
      (Except.ok ⟨base.a, base.b, base.c, intn25 draws i⟩, i + 1)
    else getRandomIPinSubnetLoop draws base fuel (i+1)

/-- `getRandomIPinSubnet` (virtualbox.go lines 853-872). -/
def getRandomIPinSubnet (draws : Nat → Nat) (base : IP4) : Except DriverErr IP4 × Nat :=
  getRandomIPinSubnetLoop draws base 5 0

/-! ## GetIP's parsing of the SSH output

Go strings are modelled as `List Char`; `strings.Split` with a one-character
separator and `strings.TrimSpace` are modelled directly so that everything reduces in
the kernel. -/

/-- Go `strings.Split(s, string(sep))` for a single-character separator: splits at
every occurrence of `sep`, keeping empty fields; on the empty string it returns one
empty field, as Go does for a non-empty separator. -/
def splitOnChar (sep : Char) : List Char → List (List Char)
  | [] => [[]]
  | ch :: rest =>
    let r := splitOnChar sep rest
    if ch = sep then [] :: r
    else
      match r with
      | [] => [[ch]]
      | g :: gs => (ch :: g) :: gs

/-- `unicode.IsSpace` restricted to the ASCII whitespace that can occur in the
`ip addr` output `GetIP` trims. -/
def isSpaceChar (ch : Char) : Bool :=
  ch == ' ' || ch == '\t' || ch == '\n' || ch == '\r'

/-- Go `strings.TrimSpace`: drop leading and trailing whitespace. -/
def trimSpace (s : List Char) : List Char :=
  ((s.dropWhile isSpaceChar).reverse.dropWhile isSpaceChar).reverse

/-- The possible outcomes of `GetIP`'s line scan: an address was returned, no `inet`
line was found (the `No IP address found` error, line 647), or the slice expression
`vals[1][:strings.Index(vals[1], "/")]` was evaluated with index `-1` — a runtime
slice-bounds panic in Go. -/
inductive IPParseResult where
  | okIP (ip : List Char)
  | noIPFound
  | panicked
  deriving DecidableEq, Repr

/-- Go `strings.Index(s, string(c))` for a one-character needle: the index of the
first occurrence of `c`, or `-1` when absent. -/
def indexOfChar (c : Char) : List Char → Int
  | [] => -1
  | ch :: rest =>
    if ch = c then 0
    else if indexOfChar c rest < 0 then -1 else indexOfChar c rest + 1

/-- One iteration of `GetIP`'s line loop (virtualbox.go lines 640-645):
`vals := strings.Split(strings.TrimSpace(line), " ")`; when `len(vals) >= 2 &&
vals[0] == "inet"` the function returns `vals[1][:strings.Index(vals[1], "/")]`.
`strings.Index` returns the position of the first `/`, or `-1` when absent — and a
slice upper bound of `-1` panics at runtime. `none` means the line does not match and
the loop continues. -/
def getIPLine (line : List Char) : Option IPParseResult :=
  match splitOnChar ' ' (trimSpace line) with
  | v0 :: v1 :: _ =>
    if v0 = "inet".toList then
      some (if indexOfChar '/' v1 < 0 then IPParseResult.panicked
        else IPParseResult.okIP (v1.take (indexOfChar '/' v1).toNat))
    else none
  | _ => none

/-- The line loop of `GetIP` over `lines := strings.Split(output, "\n")`
(virtualbox.go lines 639-647): the first matching line decides the result; if no line
matches, the `No IP address found` error is returned. -/
def getIPLines : List (List Char) → IPParseResult
  | [] => IPParseResult.noIPFound
  | l :: ls =>
    match getIPLine l with
    | some r => r
    | none => getIPLines ls

/-- The parsing stage of `GetIP` (virtualbox.go lines 639-647) applied to the SSH
command's output. -/
def GetIPParse (output : List Char) : IPParseResult :=
  getIPLines (splitOnChar '\n' output)

/-- Does a line satisfy the precondition under which `GetIP`'s slice cannot panic:
if its trimmed, space-split form starts with the token `inet` followed by a second
token, that second token contains a `/`. -/
def inetLineHasSlash (line : List Char) : Bool :=
  match splitOnChar ' ' (trimSpace line) with
  | v0 :: v1 :: _ =>
    if v0 = "inet".toList then v1.any (fun ch => ch = '/') else true
  | _ => true

/-! ## NAT port forwarding (`setPortForwarding`) -/

/-- The rule argument `fmt.Sprintf("%s,%s,127.0.0.1,%d,,%d", mapName, protocol,
actualHostPort, guestPort)` (virtualbox.go line 845). -/
def natpfRule (mapName protocol : String) (actualHostPort guestPort : Nat) : String :=
  mapName ++ "," ++ protocol ++ ",127.0.0.1," ++ toString actualHostPort ++ ",," ++
    toString guestPort

/-- The preliminary rule-deletion invocation `d.vbm("modifyvm", name, "--natpf<n>",
"delete", mapName)` (virtualbox.go line 843), as its argument list. -/
def natpfDeleteCall (machineName : String) (interfaceNum : Nat) (mapName : String) :
    List String :=
  ["modifyvm", machineName, "--natpf" ++ toString interfaceNum, "delete", mapName]

/-- The rule-installation invocation (virtualbox.go lines 844-845), as its argument
list. -/
def natpfAddCall (machineName : String) (interfaceNum : Nat) (mapName protocol : String)
    (actualHostPort guestPort : Nat) : List String :=
  ["modifyvm", machineName, "--natpf" ++ toString interfaceNum,
    natpfRule mapName protocol actualHostPort guestPort]

/-- `setPortForwarding` (virtualbox.go lines 833-849), with the port allocator's
outcome and the `vbm` command interpreter as oracles. Returns the Go `(int, error)`
pair and the trace of `vbm` invocations made. A port-allocation failure returns
`(-1, err)` before any invocation. Otherwise the deletion command is invoked and its
result is discarded (line 843 ignores the return value), then the installation
command's result decides the outcome. -/
def setPortForwarding (vbm : List String → Except DriverErr Unit)
    (allocResult : PortAllocResult) (machineName : String) (interfaceNum : Nat)
    (mapName protocol : String) (guestPort : Nat) :
    (Int × Option DriverErr) × List (List String) :=
  match allocResult with
  | PortAllocResult.listenErr => ((-1, some DriverErr.commandFailed), [])
  | PortAllocResult.allocFailed => ((-1, some DriverErr.commandFailed), [])
  | PortAllocResult.ok actualHostPort =>
    let delCall := natpfDeleteCall machineName interfaceNum mapName
    let addCall := natpfAddCall machineName interfaceNum mapName protocol
      actualHostPort guestPort
    let _ := vbm delCall
    match vbm addCall with
    | Except.error e => ((-1, some e), [delCall, addCall])
    | Except.ok _ => ((actualHostPort, none), [delCall, addCall])

/-! ## Helper lemmas -/

theorem zeroFill_sum_bounded : ∀ m n, n ≤ m → (zeroFill n).sum = n := by
  intro m
  induction m with
  | zero =>
    intro n hn
    rw [zeroFill]
    simp [Nat.le_zero.mp hn]
  | succ m ih =>
    intro n _
    rw [zeroFill]
    split_ifs with h1 h2
    · simp [h1]
    · have hb : (0 : Nat) < blocksize := by simp [blocksize]
      rw [List.sum_cons, ih (n - blocksize) (by omega)]
      omega
    · simp

theorem zeroFill_sum (n : Nat) : (zeroFill n).sum = n :=
  zeroFill_sum_bounded n n (le_refl n)

theorem zeroFill_chunk_bounds_aux :
    ∀ m n, n ≤ m → ∀ k ∈ zeroFill n, 0 < k ∧ k ≤ blocksize := by
  intro m
  induction m with
  | zero =>
    intro n hn
    rw [zeroFill]
    simp [Nat.le_zero.mp hn]
  | succ m ih =>
    intro n _
    rw [zeroFill]
    split_ifs with h1 h2
    · simp
    · intro k hk
      rcases List.mem_cons.mp hk with h | h
      · subst h; exact ⟨by simp [blocksize], le_refl _⟩
      · have hb : (0 : Nat) < blocksize := by simp [blocksize]
        exact ih (n - blocksize) (by omega) k h
    · intro k hk
      simp only [List.mem_singleton] at hk
      subst hk
      exact ⟨by omega, by omega⟩

theorem zeroFill_chunk_bounds (n : Nat) : ∀ k ∈ zeroFill n, 0 < k ∧ k ≤ blocksize :=
  zeroFill_chunk_bounds_aux n n (le_refl n)

theorem flatMap_replicate_zero_length (l : List Nat) :
    (l.flatMap (fun k => List.replicate k (0 : Nat))).length = l.sum := by
  induction l with
  | nil => rfl
  | cons k ks ih =>
    simp [List.flatMap_cons, List.length_append, List.length_replicate, ih,
      List.sum_cons]

theorem zeroFillBytes_length (n : Nat) : (zeroFillBytes n).length = n := by
  unfold zeroFillBytes
  rw [flatMap_replicate_zero_length, zeroFill_sum]

theorem zeroFillBytes_all_zero (n : Nat) : ∀ b ∈ zeroFillBytes n, b = 0 := by
  intro b hb
  unfold zeroFillBytes at hb
  rcases List.mem_flatMap.mp hb with ⟨k, _, hbk⟩
  exact List.eq_of_mem_replicate hbk

/-! ## Claim theorems -/

/-- C3: for every disk size and every input stream of at most `size_MB << 20` bytes,
`createDiskImage` writes exactly `size_MB << 20` bytes to the conversion subprocess's
stdin: the stream's bytes first, then zero bytes in 32 KiB blocks making up the
difference, and no padding at all when the stream length equals `size_MB << 20`. -/
theorem createDiskImage_exact_size (size : Nat) (r : List Nat)
    (h : r.length ≤ size <<< 20) :
    (createDiskImage size r).length = size <<< 20 ∧
    (createDiskImage size r).take r.length = r ∧
    (∀ b ∈ (createDiskImage size r).drop r.length, b = 0) ∧
    (∀ k ∈ zeroFill (size <<< 20 - r.length), 0 < k ∧ k ≤ blocksize) ∧
    (r.length = size <<< 20 → createDiskImage size r = r) := by
  simp only [createDiskImage]
  by_cases heq : r.length = size <<< 20
  · have hneg : ¬ (0 : Int) < ((size <<< 20 : Nat) : Int) - (r.length : Int) := by
      omega
    rw [if_neg hneg]
    refine ⟨heq, by simp, by simp, ?_, fun _ => rfl⟩
    have : size <<< 20 - r.length = 0 := by omega
    rw [this]
    simp [zeroFill]
  · have hlt : r.length < size <<< 20 := lt_of_le_of_ne h heq
    have hpos : (0 : Int) < ((size <<< 20 : Nat) : Int) - (r.length : Int) := by
      omega
    rw [if_pos hpos]
    have htn : (((size <<< 20 : Nat) : Int) - (r.length : Int)).toNat =
        size <<< 20 - r.length := by omega
    rw [htn]
    refine ⟨?_, ?_, ?_, zeroFill_chunk_bounds _, fun h' => absurd h' heq⟩
    · rw [List.length_append, zeroFillBytes_length]
      omega
    · exact List.take_left r _
    · rw [List.drop_left]
      exact zeroFillBytes_all_zero _

/-- C3 witness: a three-byte stream for a 1 MB disk satisfies the hypothesis. -/
theorem createDiskImage_exact_size_witness :
    ([1, 2, 3] : List Nat).length ≤ 1 <<< 20 ∧
    ((createDiskImage 1 [1, 2, 3]).length = 1 <<< 20 ∧
     (createDiskImage 1 [1, 2, 3]).take ([1, 2, 3] : List Nat).length = [1, 2, 3] ∧
     (∀ b ∈ (createDiskImage 1 [1, 2, 3]).drop ([1, 2, 3] : List Nat).length, b = 0) ∧
     (∀ k ∈ zeroFill (1 <<< 20 - ([1, 2, 3] : List Nat).length), 0 < k ∧ k ≤ blocksize) ∧
     (([1, 2, 3] : List Nat).length = 1 <<< 20 → createDiskImage 1 [1, 2, 3] = [1, 2, 3])) :=
  ⟨by decide, createDiskImage_exact_size 1 [1, 2, 3] (by decide)⟩

/-- C4: for every configured CPU count, the value passed to the create-time
`modifyvm --cpus` lies in `[1, 32]`; inputs below 1 are first replaced by the host's
detected core count (here the oracle `numCPU`, which `runtime.NumCPU` guarantees to
be at least 1), and the result — like any input above 32 — is capped at 32. -/
theorem normalizeCPU_clamped (cpu numCPU : Int) (h : 1 ≤ numCPU) :
    1 ≤ normalizeCPU cpu numCPU ∧ normalizeCPU cpu numCPU ≤ 32 ∧
    (cpu < 1 → normalizeCPU cpu numCPU = if numCPU > 32 then 32 else numCPU) ∧
    (32 < cpu → normalizeCPU cpu numCPU = 32) := by
  simp only [normalizeCPU]
  split_ifs <;> refine ⟨by omega, by omega, ?_, ?_⟩ <;> intro h' <;> omega

/-- C4 witness: CPU count 0 with an 8-core host. -/
theorem normalizeCPU_clamped_witness :
    (1 : Int) ≤ 8 ∧
    (1 ≤ normalizeCPU 0 8 ∧ normalizeCPU 0 8 ≤ 32 ∧
     ((0 : Int) < 1 → normalizeCPU 0 8 = if (8 : Int) > 32 then 32 else 8) ∧
     (32 < (0 : Int) → normalizeCPU 0 8 = 32)) :=
  ⟨by decide, normalizeCPU_clamped 0 8 (by decide)⟩

/-- C5: given a successful machine-readable status query, `GetState` maps the tokens
`running`, `paused`, `saved`, `poweroff`, `aborted` to `Running`, `Paused`, `Saved`,
`Stopped`, `Stopped` respectively, and every other token to `Unknown` (`state.None`)
with no error. -/
theorem GetStateSwitch_mapping :
    GetStateSwitch "running" = (VMState.running, none) ∧
    GetStateSwitch "paused" = (VMState.paused, none) ∧
    GetStateSwitch "saved" = (VMState.saved, none) ∧
    GetStateSwitch "poweroff" = (VMState.stopped, none) ∧
    GetStateSwitch "aborted" = (VMState.stopped, none) ∧
    ∀ token : String,
      token ∉ ["running", "paused", "saved", "poweroff", "aborted"] →
      GetStateSwitch token = (VMState.unknown, none) := by
  refine ⟨rfl, rfl, rfl, rfl, rfl, ?_⟩
  intro token h
  simp only [List.mem_cons, List.not_mem_nil, or_false, not_or] at h
  obtain ⟨h1, h2, h3, h4, h5⟩ := h
  simp [GetStateSwitch, h1, h2, h3, h4, h5]

/-- C5 witness: an unrecognized token maps to Unknown without error. -/
theorem GetStateSwitch_mapping_witness :
    ("garbage" : String) ∉ ["running", "paused", "saved", "poweroff", "aborted"] ∧
    GetStateSwitch "garbage" = (VMState.unknown, none) :=
  ⟨by decide, GetStateSwitch_mapping.2.2.2.2.2 "garbage" (by decide)⟩

/-- C6: on a syntactically valid CIDR, `parseAndValidateCIDR` fails iff the host
address equals the network's base address; for every other host address it succeeds,
returning the host address and a network whose mask equals the input CIDR's mask. -/
theorem parseAndValidateCIDR_spec (ip ones : Nat) (h : ip < 2 ^ 32) :
    (parseAndValidateCIDR ip ones = Except.error DriverErr.networkAddrCidr ↔
      ip = ip &&& cidrMask ones) ∧
    (ip ≠ ip &&& cidrMask ones →
      ∃ host net, parseAndValidateCIDR ip ones = Except.ok (host, net) ∧
        host = ip ∧ net.maskOnes = ones ∧ net.ip = ip &&& cidrMask ones) := by
  have hmod : ip % 2 ^ 32 = ip := Nat.mod_eq_of_lt h
  simp only [parseAndValidateCIDR, parseCIDRNetwork, hmod]
  by_cases hc : ip = ip &&& cidrMask ones
  · rw [if_pos hc]
    exact ⟨⟨fun _ => hc, fun _ => rfl⟩, fun hn => absurd hc hn⟩
  · rw [if_neg hc]
    refine ⟨⟨fun he => Except.noConfusion he, fun he => absurd he hc⟩,
      fun _ => ⟨ip, ⟨ip &&& cidrMask ones, ones⟩, rfl, rfl, rfl, rfl⟩⟩

/-- C6 witness: 192.168.99.1/24 is a host address distinct from its network base
192.168.99.0 and validates; the returned mask is /24. -/
theorem parseAndValidateCIDR_spec_witness :
    (3232260865 : Nat) < 2 ^ 32 ∧
    (3232260865 : Nat) ≠ 3232260865 &&& cidrMask 24 ∧
    ∃ host net, parseAndValidateCIDR 3232260865 24 = Except.ok (host, net) ∧
      host = 3232260865 ∧ net.maskOnes = 24 ∧ net.ip = 3232260865 &&& cidrMask 24 :=
  ⟨by decide, by decide,
    (parseAndValidateCIDR_spec 3232260865 24 (by decide)).2 (by decide)⟩

/-- C1 (code bug): with the preferred port 8080 busy but an ephemeral bind available
(the OS would assign 49152 to a port-0 request), `getAvailableTCPPort` propagates the
`net.Listen` error immediately instead of falling back to port 0, retrying, and
reporting the port-allocation error only after exhausting the attempts. -/
theorem getAvailableTCPPort_no_fallback :
    getAvailableTCPPort
      (fun _ p => if p = 8080 then ListenResult.err else ListenResult.bound 49152)
      8080 = PortAllocResult.listenErr := rfl

theorem stopPollLoop_const_running (fuel : Nat) : ∀ i,
    stopPollLoop (fun _ => QueryResult.ok VMState.running) fuel i = none := by
  induction fuel with
  | zero => intro i; rfl
  | succ f ih => intro i; simp [stopPollLoop, ih]

/-- C2 counterexample: no poll bound covers every sequence of state-query results —
with every query reporting Running, `Stop`'s loop has not returned after any number
of polls, so the loop's attempt count is not bounded. -/
theorem stopPollLoop_not_bounded :
    ¬ ∃ B : Nat, ∀ states : Nat → QueryResult,
        (stopPollLoop states B 0).isSome = true := by
  rintro ⟨B, hB⟩
  have h := hB (fun _ => QueryResult.ok VMState.running)
  rw [stopPollLoop_const_running B 0] at h
  simp at h

theorem stopPollLoop_exits (states : Nat → QueryResult) :
    ∀ fuel i k, i ≤ k → k < i + fuel →
      (∀ j, i ≤ j → j < k → states j = QueryResult.ok VMState.running) →
      states k ≠ QueryResult.ok VMState.running →
      ∃ res, stopPollLoop states fuel i = some (res, k + 1) := by
  intro fuel
  induction fuel with
  | zero => intro i k h1 h2 _ _; omega
  | succ f ih =>
    intro i k h1 h2 hrun hk
    by_cases hik : i = k
    · subst hik
      cases hs : states i with
      | failed =>
        exact ⟨Except.error DriverErr.commandFailed, by simp [stopPollLoop, hs]⟩
      | ok s =>
        have hsr : ¬ s = VMState.running := fun h => hk (by rw [hs, h])
        exact ⟨Except.ok (), by simp [stopPollLoop, hs, hsr]⟩
    · have hi : states i = QueryResult.ok VMState.running :=
        hrun i (le_refl i) (by omega)
      obtain ⟨res, hres⟩ := ih (i+1) k (by omega) (by omega)
        (fun j hj1 hj2 => hrun j (by omega) hj2) hk
      exact ⟨res, by simp [stopPollLoop, hi, hres]⟩

/-- C2 amended: `Stop`'s running-check loop sleeps a fixed 1-second interval between
polls but its attempt count is not bounded: it returns after the first query whose
result is not Running (`k + 1` polls when the first `k` queries report Running), and
while every query keeps reporting Running it never returns. -/
theorem stopPollLoop_fixed_interval_unbounded (states : Nat → QueryResult)
    (k fuel : Nat)
    (hrun : ∀ j, j < k → states j = QueryResult.ok VMState.running)
    (hk : states k ≠ QueryResult.ok VMState.running)
    (hfuel : k < fuel) :
    stopPollInterval = 1 ∧
    (∃ res, stopPollLoop states fuel 0 = some (res, k + 1)) ∧
    (∀ B : Nat, stopPollLoop (fun _ => QueryResult.ok VMState.running) B 0 = none) :=
  ⟨rfl,
    stopPollLoop_exits states fuel 0 k (Nat.zero_le k) (by omega)
      (fun j _ hj2 => hrun j hj2) hk,
    fun B => stopPollLoop_const_running B 0⟩

/-- C2 amended witness: two Running polls followed by Stopped exits after 3 polls. -/
theorem stopPollLoop_fixed_interval_unbounded_witness :
    (∀ j, j < 2 → (fun n => if n < 2 then QueryResult.ok VMState.running
        else QueryResult.ok VMState.stopped) j = QueryResult.ok VMState.running) ∧
    ((fun n => if n < 2 then QueryResult.ok VMState.running
        else QueryResult.ok VMState.stopped) 2 ≠ QueryResult.ok VMState.running) ∧
    2 < 5 ∧
    (stopPollInterval = 1 ∧
     (∃ res, stopPollLoop (fun n => if n < 2 then QueryResult.ok VMState.running
        else QueryResult.ok VMState.stopped) 5 0 = some (res, 2 + 1)) ∧
     (∀ B : Nat, stopPollLoop (fun _ => QueryResult.ok VMState.running) B 0 = none)) :=
  ⟨by decide, by decide, by decide,
    stopPollLoop_fixed_interval_unbounded _ 2 5 (by decide) (by decide) (by decide)⟩

/-- C7: `Remove` dispatches on the queried state: a missing machine is success with
no destructive command; Running is stopped gracefully before unregistering; a state
that is neither Stopped nor Running is killed before unregistering; and whenever a
state was found (and the needed sub-operation succeeded) the final command
unregisters and deletes the VM. -/
theorem Remove_dispatch (stopR killR unregR : Except DriverErr Unit) :
    Remove StateQuery.notFound stopR killR unregR = (Except.ok (), []) ∧
    (stopR = Except.ok () →
      Remove (StateQuery.found VMState.running) stopR killR unregR =
        (unregR, [RemoveCmd.stop, RemoveCmd.unregisterDelete])) ∧
    (∀ s, s ≠ VMState.stopped → s ≠ VMState.running → killR = Except.ok () →
      Remove (StateQuery.found s) stopR killR unregR =
        (unregR, [RemoveCmd.kill, RemoveCmd.unregisterDelete])) ∧
    (∀ s, stopR = Except.ok () → killR = Except.ok () →
      ((Remove (StateQuery.found s) stopR killR unregR).2).getLast? =
        some RemoveCmd.unregisterDelete) := by
  refine ⟨rfl, ?_, ?_, ?_⟩
  · intro h; subst h; rfl
  · intro s hs1 hs2 h; subst h
    cases s <;> simp_all [Remove]
  · intro s h1 h2; subst h1; subst h2
    cases s <;> simp [Remove]

/-- C7 witness: a Saved machine (neither Stopped nor Running) is killed, then
unregistered and deleted, with no error when both sub-operations succeed. -/
theorem Remove_dispatch_witness :
    (VMState.saved ≠ VMState.stopped) ∧ (VMState.saved ≠ VMState.running) ∧
    Remove (StateQuery.found VMState.saved) (Except.ok ()) (Except.ok ())
        (Except.ok ()) =
      (Except.ok (), [RemoveCmd.kill, RemoveCmd.unregisterDelete]) :=
  ⟨by decide, by decide,
    (Remove_dispatch (Except.ok ()) (Except.ok ()) (Except.ok ())).2.2.1
      VMState.saved (by decide) (by decide) rfl⟩

theorem getRandomIPinSubnetLoop_ok (draws : Nat → Nat) (base : IP4) :
    ∀ fuel i addr attempts,
      getRandomIPinSubnetLoop draws base fuel i = (Except.ok addr, attempts) →
      addr.a = base.a ∧ addr.b = base.b ∧ addr.c = base.c ∧ addr.d < 25 ∧
        addr.d ≠ base.d := by
  intro fuel
  induction fuel with
  | zero =>
    intro i addr attempts h
    exact Except.noConfusion (congrArg Prod.fst h)
  | succ f ih =>
    intro i addr attempts h
    rw [getRandomIPinSubnetLoop] at h
    by_cases hc : intn25 draws i ≠ base.d
    · rw [if_pos hc, Prod.mk.injEq] at h
      obtain ⟨h1, -⟩ := h
      injection h1 with h1
      subst h1
      exact ⟨rfl, rfl, rfl, Nat.mod_lt _ (by omega), hc⟩
    · rw [if_neg hc] at h
      exact ih (i+1) addr attempts h

theorem getRandomIPinSubnetLoop_collide (draws : Nat → Nat) (base : IP4) :
    ∀ fuel i, (∀ j, i ≤ j → j < i + fuel → intn25 draws j = base.d) →
      getRandomIPinSubnetLoop draws base fuel i =
        (Except.error DriverErr.unableToGenerateRandomIP, i + fuel) := by
  intro fuel
  induction fuel with
  | zero => intro i _; rfl
  | succ f ih =>
    intro i h
    have hi : intn25 draws i = base.d := h i (le_refl i) (by omega)
    rw [getRandomIPinSubnetLoop, if_neg (not_not_intro hi),
      ih (i+1) (fun j hj1 hj2 => h j (by omega) (by omega))]
    rw [Prod.mk.injEq]
    exact ⟨rfl, by omega⟩

/-- C8: the random DHCP-address picker never returns the supplied host address,
returns an address with the host's first three octets and last octet below 25, and,
when every draw of the random source collides with the host's last octet, fails with
`ErrUnableToGenerateRandomIP` after exactly 5 attempts. -/
theorem getRandomIPinSubnet_spec (draws : Nat → Nat) (base : IP4) :
    (∀ addr attempts, getRandomIPinSubnet draws base = (Except.ok addr, attempts) →
      addr ≠ base ∧ addr.a = base.a ∧ addr.b = base.b ∧ addr.c = base.c ∧
        addr.d < 25) ∧
    ((∀ i, i < 5 → intn25 draws i = base.d) →
      getRandomIPinSubnet draws base =
        (Except.error DriverErr.unableToGenerateRandomIP, 5)) := by
  constructor
  · intro addr attempts h
    obtain ⟨ha, hb, hc, hd, hne⟩ :=
      getRandomIPinSubnetLoop_ok draws base 5 0 addr attempts h
    exact ⟨fun he => hne (by rw [he]), ha, hb, hc, hd⟩
  · intro hcol
    exact getRandomIPinSubnetLoop_collide draws base 5 0
      (fun j _ hj2 => hcol j (by omega))

/-- C8 witness: host 192.168.99.1; a source drawing 3 yields 192.168.99.3 on the
first attempt (≠ host, low octet), and a source always drawing 1 collides five times
and fails. -/
theorem getRandomIPinSubnet_spec_witness :
    ((⟨192, 168, 99, 3⟩ : IP4) ≠ ⟨192, 168, 99, 1⟩ ∧
      (⟨192, 168, 99, 3⟩ : IP4).a = (⟨192, 168, 99, 1⟩ : IP4).a ∧
      (⟨192, 168, 99, 3⟩ : IP4).b = (⟨192, 168, 99, 1⟩ : IP4).b ∧
      (⟨192, 168, 99, 3⟩ : IP4).c = (⟨192, 168, 99, 1⟩ : IP4).c ∧
      (⟨192, 168, 99, 3⟩ : IP4).d < 25) ∧
    getRandomIPinSubnet (fun _ => 1) ⟨192, 168, 99, 1⟩ =
      (Except.error DriverErr.unableToGenerateRandomIP, 5) :=
  ⟨(getRandomIPinSubnet_spec (fun _ => 3) ⟨192, 168, 99, 1⟩).1
      ⟨192, 168, 99, 3⟩ 1 rfl,
    (getRandomIPinSubnet_spec (fun _ => 1) ⟨192, 168, 99, 1⟩).2 (by decide)⟩

theorem indexOfChar_nonneg_of_any (c : Char) (v : List Char)
    (h : v.any (fun ch => ch = c) = true) : 0 ≤ indexOfChar c v := by
  induction v with
  | nil => simp at h
  | cons a rest ih =>
    rw [indexOfChar]
    by_cases ha : a = c
    · rw [if_pos ha]
    · rw [if_neg ha]
      simp only [List.any_cons, Bool.or_eq_true, decide_eq_true_eq] at h
      have hr := ih (h.resolve_left ha)
      rw [if_neg (by omega)]
      omega

theorem getIPLine_no_panic (l : List Char) (h : inetLineHasSlash l = true) :
    getIPLine l ≠ some IPParseResult.panicked := by
  unfold getIPLine
  unfold inetLineHasSlash at h
  cases hsp : splitOnChar ' ' (trimSpace l) with
  | nil => simp
  | cons v0 rest =>
    cases rest with
    | nil => simp
    | cons v1 rest2 =>
      rw [hsp] at h
      simp only at h ⊢
      by_cases hv : v0 = "inet".toList
      · rw [if_pos hv] at h ⊢
        have hnn := indexOfChar_nonneg_of_any '/' v1 h
        rw [if_neg (by omega)]
        simp
      · rw [if_neg hv]
        simp

theorem getIPLines_no_panic :
    ∀ ls : List (List Char), (∀ l ∈ ls, inetLineHasSlash l = true) →
      getIPLines ls ≠ IPParseResult.panicked := by
  intro ls
  induction ls with
  | nil => intro _; simp [getIPLines]
  | cons l rest ih =>
    intro hall
    have hl := getIPLine_no_panic l (hall l (by simp))
    have hrest := ih (fun x hx => hall x (by simp [hx]))
    rw [getIPLines]
    cases hline : getIPLine l with
    | none => exact hrest
    | some r =>
      have : r ≠ IPParseResult.panicked := fun he => hl (by rw [hline, he])
      simpa using this

/-- C9 (implicit): `GetIP`'s parsing of the SSH output is not total — on an output
containing a line whose first whitespace-separated token is `inet` and whose second
token has no `/` (e.g. busybox `ifconfig`-style `inet addr:10.0.2.15`), the slice
bound is `strings.Index`'s `-1` and the slice expression panics; the parsing is
panic-free whenever every such second token contains a `/`. -/
theorem GetIPParse_panic_behavior :
    GetIPParse ("inet addr:10.0.2.15".toList) = IPParseResult.panicked ∧
    (∀ output : List Char,
      (∀ l ∈ splitOnChar '\n' output, inetLineHasSlash l = true) →
      GetIPParse output ≠ IPParseResult.panicked) := by
  constructor
  · rfl
  · intro output h
    exact getIPLines_no_panic _ h

/-- C9 witness: a well-formed `ip addr` output with `/`-suffixed addresses does not
panic. -/
theorem GetIPParse_panic_behavior_witness :
    (∀ l ∈ splitOnChar '\n' ("    inet 192.168.99.100/24 scope global eth1".toList),
      inetLineHasSlash l = true) ∧
    GetIPParse ("    inet 192.168.99.100/24 scope global eth1".toList) ≠
      IPParseResult.panicked :=
  ⟨by decide, GetIPParse_panic_behavior.2 _ (by decide)⟩

/-- C10: `setPortForwarding` ignores the outcome of the preliminary rule-deletion
command: after a successful port allocation it always invokes the deletion followed
by the installation, and its result is the same under any two command interpreters
that agree on the installation command — so the result depends only on the port
allocation and the install command. -/
theorem setPortForwarding_ignores_delete (machineName mapName protocol : String)
    (interfaceNum guestPort p : Nat)
    (vbm vbm1 vbm2 : List String → Except DriverErr Unit) (allocR : PortAllocResult)
    (hagree : ∀ hp : Nat,
      vbm1 (natpfAddCall machineName interfaceNum mapName protocol hp guestPort) =
        vbm2 (natpfAddCall machineName interfaceNum mapName protocol hp guestPort)) :
    (setPortForwarding vbm (PortAllocResult.ok p) machineName interfaceNum mapName
        protocol guestPort).2 =
      [natpfDeleteCall machineName interfaceNum mapName,
        natpfAddCall machineName interfaceNum mapName protocol p guestPort] ∧
    setPortForwarding vbm1 allocR machineName interfaceNum mapName protocol
        guestPort =
      setPortForwarding vbm2 allocR machineName interfaceNum mapName protocol
        guestPort := by
  constructor
  · cases h : vbm (natpfAddCall machineName interfaceNum mapName protocol p
        guestPort) with
    | error e => simp [setPortForwarding, h]
    | ok u => simp [setPortForwarding, h]
  · cases allocR with
    | listenErr => rfl
    | allocFailed => rfl
    | ok hp =>
      simp only [setPortForwarding]
      rw [hagree hp]

/-- C10 witness: an interpreter that fails exactly on the deletion command yields the
same result and trace as one that always succeeds. -/
theorem setPortForwarding_ignores_delete_witness :
    (∀ hp : Nat,
      (fun args => if args = natpfDeleteCall "default" 1 "ssh"
          then Except.error DriverErr.commandFailed else Except.ok ())
        (natpfAddCall "default" 1 "ssh" "tcp" hp 22) =
      (fun _ => (Except.ok () : Except DriverErr Unit))
        (natpfAddCall "default" 1 "ssh" "tcp" hp 22)) ∧
    ((setPortForwarding (fun _ => Except.ok ()) (PortAllocResult.ok 2222) "default"
        1 "ssh" "tcp" 22).2 =
      [natpfDeleteCall "default" 1 "ssh",
        natpfAddCall "default" 1 "ssh" "tcp" 2222 22] ∧
     setPortForwarding (fun args => if args = natpfDeleteCall "default" 1 "ssh"
          then Except.error DriverErr.commandFailed else Except.ok ())
        (PortAllocResult.ok 2222) "default" 1 "ssh" "tcp" 22 =
      setPortForwarding (fun _ => Except.ok ()) (PortAllocResult.ok 2222) "default"
        1 "ssh" "tcp" 22) :=
  ⟨by intro hp; simp [natpfAddCall, natpfDeleteCall],
    setPortForwarding_ignores_delete "default" "ssh" "tcp" 1 22 2222
      (fun _ => Except.ok ())
      (fun args => if args = natpfDeleteCall "default" 1 "ssh"
        then Except.error DriverErr.commandFailed else Except.ok ())
      (fun _ => Except.ok ()) (PortAllocResult.ok 2222)
      (by intro hp; simp [natpfAddCall, natpfDeleteCall])⟩

end Yati.VirtualBox
